import Mathlib

/-!
Shallow embedding of the camera-trap detection pipeline
(`camtrap/run_tf_detector.py`, `camtrap/server.py`).

Machine floats are modelled as rationals (`ℚ`); the detection backend is
modelled as an `Except` value: either the three zipped output sequences
(boxes, scores, classes) of the model, or an error (a raised exception).
-/

/-- Modelled from the spec: `truncate_float` is imported from `ct_utils`,
which is not among the repository's source files.  The spec says each value
is "rounded (truncated toward the configured precision, not banker's-rounded)"
to the given number of decimal digits, so we truncate `x` to `precision`
decimal digits. -/
def truncate_float (x : ℚ) (precision : ℕ) : ℚ :=
  ⌊x * 10 ^ precision⌋ / 10 ^ precision

namespace TFDetector

/-- `TFDetector.CONF_DIGITS`: decimal places kept for confidences. -/
def CONF_DIGITS : ℕ := 3

/-- `TFDetector.COORD_DIGITS`: decimal places kept for box coordinates. -/
def COORD_DIGITS : ℕ := 4

/-- `TFDetector.FAILURE_TF_INFER`. -/
def FAILURE_TF_INFER : String := "Failure TF inference"

/-- `TFDetector.DEFAULT_OUTPUT_CONFIDENCE_THRESHOLD = 0.1`. -/
def DEFAULT_OUTPUT_CONFIDENCE_THRESHOLD : ℚ := 1/10

/-- `TFDetector.round_and_make_float`. -/
def round_and_make_float (d : ℚ) (precision : ℕ) : ℚ :=
  truncate_float d precision

/-- One raw detection produced by the backend: one slot of the zipped
`(boxes, scores, classes)` triple.  The box is in the model's native format
`[y1, x1, y2, x2]`. -/
structure RawDetection where
  box : ℚ × ℚ × ℚ × ℚ
  score : ℚ
  cls : ℤ
deriving DecidableEq, Repr

/-- `TFDetector.__convert_coords`: from `[y1, x1, y2, x2]` to
`[x1, y1, width, height]`, each value truncated to `COORD_DIGITS` places. -/
def convert_coords : ℚ × ℚ × ℚ × ℚ → ℚ × ℚ × ℚ × ℚ
  | (t0, t1, t2, t3) =>
    let width := t3 - t1
    let height := t2 - t0
    (round_and_make_float t1 COORD_DIGITS,
     round_and_make_float t0 COORD_DIGITS,
     round_and_make_float width COORD_DIGITS,
     round_and_make_float height COORD_DIGITS)

/-- `TFDetector.convert_to_tf_coords`: from `[x1, y1, width, height]` back to
`[y1, x1, y2, x2]`. -/
def convert_to_tf_coords : ℚ × ℚ × ℚ × ℚ → ℚ × ℚ × ℚ × ℚ
  | (x1, y1, width, height) => (y1, x1, y1 + height, x1 + width)

/-- One entry of the `detections` list of the output dict:
`{'category': str(int(c)), 'conf': truncate_float(s, 3), 'bbox': __convert_coords(b)}`. -/
structure Detection where
  category : String
  conf : ℚ
  bbox : ℚ × ℚ × ℚ × ℚ
deriving DecidableEq, Repr

/-- The result dict of `generate_detections_one_image`.  A `none` field models
a key absent from the dict. -/
structure DetectionResult where
  file : String
  max_detection_conf : Option ℚ
  detections : Option (List Detection)
  failure : Option String
deriving DecidableEq, Repr

/-- Builds the detection entry appended to `detections_cur_image` for a raw
detection `(b, s, c)`. -/
def mkDetectionEntry (d : RawDetection) : Detection :=
  { category := toString d.cls
    conf := truncate_float d.score CONF_DIGITS
    bbox := convert_coords d.box }

/-- One iteration of the `for b, s, c in zip(boxes, scores, classes)` loop.
The accumulator is `(detections_cur_image, max_detection_conf, animal)`. -/
def detectStep (detection_threshold : ℚ)
    (acc : List Detection × ℚ × ℤ) (d : RawDetection) :
    List Detection × ℚ × ℤ :=
  if d.cls = 3 then acc
  else
    let acc1 :=
      if detection_threshold < d.score then
        (acc.1 ++ [mkDetectionEntry d],
         if acc.2.1 < d.score then d.score else acc.2.1,
         acc.2.2)
      else acc
    if d.cls = 1 then (acc1.1, acc1.2.1, 1) else acc1

/-- `TFDetector.generate_detections_one_image`.  The backend call
`self._generate_detections_one_image(image)` is abstracted as the `backend`
argument: `Except.error` models a raised exception, `Except.ok` the zipped
raw detections.  Returns the result dict paired with the `animal` flag. -/
def generate_detections_one_image (backend : Except String (List RawDetection))
    (image_id : String) (detection_threshold : ℚ) :
    DetectionResult × ℤ :=
  match backend with
  | Except.error _ =>
      ({ file := image_id
         max_detection_conf := none
         detections := none
         failure := some FAILURE_TF_INFER }, 0)
  | Except.ok raws =>
      let st := raws.foldl (detectStep detection_threshold) ([], 0, 0)
      ({ file := image_id
         max_detection_conf := some (truncate_float st.2.1 CONF_DIGITS)
         detections := some st.1
         failure := none }, st.2.2)

end TFDetector

open TFDetector

/-- `load_and_run_detector`: runs the detector with the default output
threshold, then passes `result['detections']` to the renderer.  The dict
lookup raises `KeyError` when the key is absent (the failure path), modelled
as an `Except.error` escaping this function. -/
def load_and_run_detector (backend : Except String (List RawDetection))
    (image_id : String) : Except String (DetectionResult × ℤ) :=
  let r := generate_detections_one_image backend image_id
    DEFAULT_OUTPUT_CONFIDENCE_THRESHOLD
  match r.1.detections with
  | none => Except.error "KeyError: detections"
  | some _ => Except.ok r

/-- `server.py`: the alert condition of the dispatch loop, `if flag == 1`. -/
def shouldAlert (flag : ℤ) : Bool :=
  flag == 1

/-- `server.py`'s `while True` receive/detect/dispatch loop, run over a finite
stream of frames (each frame abstracted by its backend outcome).  Produces
the per-frame alert decisions; an exception escaping
`load_and_run_detector` halts the loop. -/
def server_loop (frames : List (Except String (List RawDetection))) :
    Except String (List Bool) :=
  match frames with
  | [] => Except.ok []
  | f :: fs =>
    match load_and_run_detector f "frame" with
    | Except.error e => Except.error e
    | Except.ok r =>
      match server_loop fs with
      | Except.error e => Except.error e
      | Except.ok rest => Except.ok (shouldAlert r.2 :: rest)

/-! ### Helper lemmas about truncation -/

theorem truncate_float_le (x : ℚ) (p : ℕ) : truncate_float x p ≤ x := by
  have hf : (0:ℚ) < 10 ^ p := by positivity
  rw [truncate_float, div_le_iff₀ hf]
  exact Int.floor_le (x * 10 ^ p)

theorem truncate_float_gt (x : ℚ) (p : ℕ) :
    x - 1 / 10 ^ p < truncate_float x p := by
  have hf : (0:ℚ) < 10 ^ p := by positivity
  rw [truncate_float, lt_div_iff₀ hf, sub_mul, one_div, inv_mul_cancel₀ hf.ne']
  exact sub_lt_iff_lt_add.mpr (Int.lt_floor_add_one (x * 10 ^ p))

theorem truncate_float_mono {x y : ℚ} (p : ℕ) (h : x ≤ y) :
    truncate_float x p ≤ truncate_float y p := by
  have hf : (0:ℚ) < 10 ^ p := by positivity
  have h3 : ((⌊x * 10 ^ p⌋ : ℤ) : ℚ) ≤ ((⌊y * 10 ^ p⌋ : ℤ) : ℚ) := by
    exact_mod_cast Int.floor_mono (mul_le_mul_of_nonneg_right h hf.le)
  rw [truncate_float, truncate_float]
  exact (div_le_div_iff_of_pos_right hf).mpr h3

theorem truncate_float_nonneg {x : ℚ} (p : ℕ) (h : 0 ≤ x) :
    0 ≤ truncate_float x p := by
  have hf : (0:ℚ) ≤ 10 ^ p := by positivity
  exact div_nonneg (by exact_mod_cast Int.floor_nonneg.mpr (by positivity)) hf

theorem truncate_float_zero (p : ℕ) : truncate_float 0 p = 0 := by
  simp [truncate_float]

/-! ### Helper lemmas about `List.foldl max` -/

theorem le_foldl_max (l : List ℚ) (a : ℚ) : a ≤ l.foldl max a := by
  induction l generalizing a with
  | nil => exact le_refl a
  | cons x xs ih => exact le_trans (le_max_left a x) (ih (max a x))

theorem foldl_max_eq_or_mem (l : List ℚ) (a : ℚ) :
    l.foldl max a = a ∨ l.foldl max a ∈ l := by
  induction l generalizing a with
  | nil => exact Or.inl rfl
  | cons x xs ih =>
    rcases ih (max a x) with h | h
    · rcases max_choice a x with hm | hm
      · exact Or.inl (by rw [List.foldl_cons, h, hm])
      · exact Or.inr (by rw [List.foldl_cons, h, hm]; exact List.mem_cons_self x xs)
    · exact Or.inr (List.mem_cons_of_mem x h)

theorem le_foldl_max_of_mem : ∀ (l : List ℚ) (a x : ℚ), x ∈ l → x ≤ l.foldl max a := by
  intro l
  induction l with
  | nil => intro a x h; cases h
  | cons y ys ih =>
    intro a x h
    rw [List.foldl_cons]
    rcases List.mem_cons.mp h with rfl | h2
    · exact le_trans (le_max_right a x) (le_foldl_max ys (max a x))
    · exact ih (max a y) x h2

/-! ### Characterization of the detection loop -/

namespace TFDetector

/-- The inclusion test of the loop: not the excluded class, and strictly above
the threshold. -/
def included (t : ℚ) (d : RawDetection) : Bool :=
  decide (d.cls ≠ 3) && decide (t < d.score)

theorem detectStep_fst (t : ℚ) (acc : List Detection × ℚ × ℤ) (d : RawDetection) :
    (detectStep t acc d).1 =
      if included t d then acc.1 ++ [mkDetectionEntry d] else acc.1 := by
  by_cases h3 : d.cls = 3
  · simp [detectStep, included, h3]
  · by_cases hs : t < d.score
    · by_cases h1 : d.cls = 1 <;> simp [detectStep, included, h3, hs, h1]
    · by_cases h1 : d.cls = 1 <;> simp [detectStep, included, h3, hs, h1]

theorem detectStep_max (t : ℚ) (acc : List Detection × ℚ × ℤ) (d : RawDetection) :
    (detectStep t acc d).2.1 =
      if included t d then max acc.2.1 d.score else acc.2.1 := by
  by_cases h3 : d.cls = 3
  · simp [detectStep, included, h3]
  · by_cases hs : t < d.score
    · by_cases hm : acc.2.1 < d.score
      · by_cases h1 : d.cls = 1 <;>
          simp [detectStep, included, h3, hs, h1, hm, max_eq_right hm.le]
      · by_cases h1 : d.cls = 1 <;>
          simp [detectStep, included, h3, hs, h1, hm, max_eq_left (not_lt.mp hm)]
    · by_cases h1 : d.cls = 1 <;> simp [detectStep, included, h3, hs, h1]

theorem detectStep_animal (t : ℚ) (acc : List Detection × ℚ × ℤ) (d : RawDetection) :
    (detectStep t acc d).2.2 = if d.cls = 1 then 1 else acc.2.2 := by
  by_cases h3 : d.cls = 3
  · simp [detectStep, h3]
  · by_cases hs : t < d.score
    · by_cases h1 : d.cls = 1 <;> simp [detectStep, h3, hs, h1]
    · by_cases h1 : d.cls = 1 <;> simp [detectStep, h3, hs, h1]

theorem foldl_detectStep_fst (t : ℚ) (raws : List RawDetection) :
    ∀ acc : List Detection × ℚ × ℤ,
      (raws.foldl (detectStep t) acc).1 =
        acc.1 ++ (raws.filter (included t)).map mkDetectionEntry := by
  induction raws with
  | nil => intro acc; simp
  | cons d rest ih =>
    intro acc
    rw [List.foldl_cons, ih]
    by_cases h : included t d
    · simp [List.filter_cons, h, detectStep_fst]
    · simp [List.filter_cons, h, detectStep_fst]

theorem foldl_detectStep_max (t : ℚ) (raws : List RawDetection) :
    ∀ acc : List Detection × ℚ × ℤ,
      (raws.foldl (detectStep t) acc).2.1 =
        ((raws.filter (included t)).map RawDetection.score).foldl max acc.2.1 := by
  induction raws with
  | nil => intro acc; simp
  | cons d rest ih =>
    intro acc
    rw [List.foldl_cons, ih]
    by_cases h : included t d
    · simp [List.filter_cons, h, detectStep_max]
    · simp [List.filter_cons, h, detectStep_max]

theorem foldl_detectStep_animal (t : ℚ) (raws : List RawDetection) :
    ∀ acc : List Detection × ℚ × ℤ,
      (raws.foldl (detectStep t) acc).2.2 =
        if raws.any (fun d => decide (d.cls = 1)) then 1 else acc.2.2 := by
  induction raws with
  | nil => intro acc; simp
  | cons d rest ih =>
    intro acc
    rw [List.foldl_cons, ih]
    by_cases h1 : d.cls = 1 <;> simp [detectStep_animal, h1]

theorem generate_ok_detections (raws : List RawDetection) (image_id : String) (t : ℚ) :
    (generate_detections_one_image (Except.ok raws) image_id t).1.detections =
      some ((raws.filter (included t)).map mkDetectionEntry) := by
  simp [generate_detections_one_image, foldl_detectStep_fst]

theorem generate_ok_max (raws : List RawDetection) (image_id : String) (t : ℚ) :
    (generate_detections_one_image (Except.ok raws) image_id t).1.max_detection_conf =
      some (truncate_float
        (((raws.filter (included t)).map RawDetection.score).foldl max 0) CONF_DIGITS) := by
  simp [generate_detections_one_image, foldl_detectStep_max]

theorem generate_ok_animal (raws : List RawDetection) (image_id : String) (t : ℚ) :
    (generate_detections_one_image (Except.ok raws) image_id t).2 =
      (if raws.any (fun d => decide (d.cls = 1)) then 1 else 0) := by
  simp [generate_detections_one_image, foldl_detectStep_animal]

theorem generate_error (e image_id : String) (t : ℚ) :
    generate_detections_one_image (Except.error e) image_id t =
      ({ file := image_id
         max_detection_conf := none
         detections := none
         failure := some FAILURE_TF_INFER }, 0) := rfl

end TFDetector

/-! ### Claim theorems -/

/-- C2: for the raw detections `[{box:[0.1,0.2,0.4,0.5], score:0.92, class:1},
{box:[0,0,1,1], score:0.99, class:3}]` with threshold `0.1`, the output is
exactly one detection with bbox `[0.2, 0.1, 0.3, 0.3]`, confidence `0.92` and
category `"1"`; max confidence is `0.92`; the animal flag is set; the class-3
detection appears nowhere in the output. -/
theorem C2_end_to_end_example :
    generate_detections_one_image
      (Except.ok [⟨(1/10, 2/10, 4/10, 5/10), 92/100, 1⟩,
                  ⟨(0, 0, 1, 1), 99/100, 3⟩]) "img" (1/10)
    = ({ file := "img"
         max_detection_conf := some (92/100)
         detections := some [⟨"1", 92/100, (2/10, 1/10, 3/10, 3/10)⟩]
         failure := none }, 1) := by
  simp only [generate_detections_one_image, List.foldl, detectStep,
    mkDetectionEntry, convert_coords, round_and_make_float, truncate_float,
    CONF_DIGITS, COORD_DIGITS]
  norm_num
  decide

/-- C3: the output detection list consists exactly of the raw detections of a
non-excluded class whose confidence is strictly greater than the threshold,
each turned into its detection entry: a non-excluded detection appears in the
output iff its confidence strictly exceeds `detection_threshold` (an equal
confidence is excluded). -/
theorem C3_strict_threshold (t : ℚ) (raws : List RawDetection) (image_id : String) :
    (generate_detections_one_image (Except.ok raws) image_id t).1.detections =
      some ((raws.filter
        (fun d => decide (d.cls ≠ 3) && decide (t < d.score))).map mkDetectionEntry) := by
  rw [generate_ok_detections]
  rfl

/-- C4: on the success path the returned animal flag is `1` iff some raw
detection has class `1`, for every threshold: the flag ignores the confidence
filter, so it is set even when the class-1 detection is below the
threshold. -/
theorem C4_animal_flag_ignores_threshold (t : ℚ) (raws : List RawDetection)
    (image_id : String) :
    (generate_detections_one_image (Except.ok raws) image_id t).2 = 1 ↔
      ∃ d ∈ raws, d.cls = 1 := by
  rw [generate_ok_animal]
  by_cases h : raws.any (fun d => decide (d.cls = 1)) <;>
    simp only [h, if_true, if_false] <;>
    simp only [List.any_eq_true, decide_eq_true_eq] at h <;>
    simp [h]

/-- C5: raw detections of class `3` contribute neither to the detections list
nor to the max-confidence value: the result on any raw sequence has the same
detections and the same max confidence as the result on the sequence with all
class-3 detections removed, for every threshold. -/
theorem C5_class3_never_contributes (t : ℚ) (raws : List RawDetection)
    (image_id : String) :
    (generate_detections_one_image (Except.ok raws) image_id t).1.detections =
      (generate_detections_one_image
        (Except.ok (raws.filter (fun d => decide (d.cls ≠ 3)))) image_id t).1.detections ∧
    (generate_detections_one_image (Except.ok raws) image_id t).1.max_detection_conf =
      (generate_detections_one_image
        (Except.ok (raws.filter (fun d => decide (d.cls ≠ 3)))) image_id t).1.max_detection_conf := by
  have key : (raws.filter (fun d => decide (d.cls ≠ 3))).filter (included t) =
      raws.filter (included t) := by
    rw [List.filter_filter]
    apply List.filter_congr
    intro d _
    cases hd : decide (d.cls ≠ 3) <;> simp [included, hd]
  constructor
  · rw [generate_ok_detections, generate_ok_detections, key]
  · rw [generate_ok_max, generate_ok_max, key]

/-- C9: the detections list of a successful result is an order-preserving
subsequence of the raw detections (mapped to their entries): surviving
detections keep exactly the backend's relative order. -/
theorem C9_order_preserving_subsequence (t : ℚ) (raws : List RawDetection)
    (image_id : String) :
    List.Sublist
      (((generate_detections_one_image (Except.ok raws) image_id t).1.detections).getD [])
      (raws.map mkDetectionEntry) := by
  rw [generate_ok_detections]
  exact List.Sublist.map mkDetectionEntry (List.filter_sublist raws)

/-- C10: when the backend raises, the animal flag returned alongside the
failure-tagged result is `0`, and the dispatcher's alert condition
(`flag == 1`) is false for it: a failed frame never triggers an alert. -/
theorem C10_no_alert_on_failure (err image_id : String) (t : ℚ) :
    (generate_detections_one_image (Except.error err) image_id t).2 = 0 ∧
    (generate_detections_one_image (Except.error err) image_id t).1.failure =
      some FAILURE_TF_INFER ∧
    shouldAlert (generate_detections_one_image (Except.error err) image_id t).2 = false :=
  ⟨rfl, rfl, rfl⟩

/-- C1: when the backend raises, `generate_detections_one_image` does swallow
the exception and returns a result with the failure tag set, and a successful
frame alone is processed fine; but the failure-path result has no
`detections` key, so the driver's unconditional `result['detections']`
lookup raises `KeyError` and the loop halts instead of proceeding to the
next frame. -/
theorem C1_failure_halts_driver_loop :
    (generate_detections_one_image (Except.error "TF inference raised") "frame"
        DEFAULT_OUTPUT_CONFIDENCE_THRESHOLD).1.failure = some FAILURE_TF_INFER ∧
    server_loop [Except.ok []] = Except.ok [false] ∧
    server_loop [Except.error "TF inference raised", Except.ok []] =
      Except.error "KeyError: detections" :=
  ⟨rfl, rfl, rfl⟩

/-- C8: the coordinate normalizer maps `[y1, x1, y2, x2]` to
`[x1, y1, x2 - x1, y2 - y1]` with each component truncated to 4 decimal
digits, for all inputs (no bounds clamping); truncation never rounds up,
errs by less than `10 ^ (-4)` and lands on a multiple of `10 ^ (-4)`; a
negative width passes through unchanged apart from truncation, and `0.00015`
truncates to `0.0001` rather than rounding to the nearest `0.0002`. -/
theorem C8_normalizer_truncates_no_clamping :
    (∀ t0 t1 t2 t3 : ℚ, convert_coords (t0, t1, t2, t3) =
      (truncate_float t1 4, truncate_float t0 4,
       truncate_float (t3 - t1) 4, truncate_float (t2 - t0) 4)) ∧
    (∀ v : ℚ, truncate_float v 4 ≤ v ∧ v - 1/10^4 < truncate_float v 4 ∧
      ∃ n : ℤ, truncate_float v 4 = n / 10^4) ∧
    convert_coords (0, 1/2, 0, 1/5) = (1/2, 0, -(3/10), 0) ∧
    truncate_float (15/100000) 4 = 1/10^4 := by
  refine ⟨?_, ?_, ?_, ?_⟩
  · intro t0 t1 t2 t3
    simp [convert_coords, round_and_make_float, COORD_DIGITS]
  · intro v
    exact ⟨truncate_float_le v 4, truncate_float_gt v 4, ⟨⌊v * 10 ^ 4⌋, rfl⟩⟩
  · simp only [convert_coords, round_and_make_float, COORD_DIGITS, truncate_float]
    norm_num
  · rw [truncate_float]
    norm_num

/-- C6: in every successfully built result whose raw scores are nonnegative
(scores are probabilities in `[0,1]`), the max-confidence value is some `m`
with `m` nonnegative, `m = 0` when the detections list is empty, and `m` the
maximum of the confidences of the returned detections when non-empty. -/
theorem C6_max_confidence_invariant (t : ℚ) (raws : List RawDetection)
    (image_id : String) (h : ∀ d ∈ raws, 0 ≤ d.score) :
    ∃ ds m,
      (generate_detections_one_image (Except.ok raws) image_id t).1.detections = some ds ∧
      (generate_detections_one_image (Except.ok raws) image_id t).1.max_detection_conf =
        some m ∧
      0 ≤ m ∧
      (ds = [] → m = 0) ∧
      (ds ≠ [] → m ∈ ds.map Detection.conf ∧ ∀ e ∈ ds, e.conf ≤ m) := by
  refine ⟨(raws.filter (included t)).map mkDetectionEntry,
    truncate_float (((raws.filter (included t)).map RawDetection.score).foldl max 0)
      CONF_DIGITS,
    generate_ok_detections raws image_id t, generate_ok_max raws image_id t, ?_, ?_, ?_⟩
  · exact truncate_float_nonneg _ (le_foldl_max _ 0)
  · intro hds
    have hFnil : raws.filter (included t) = [] := by
      simpa using hds
    rw [hFnil]
    simp [truncate_float_zero]
  · intro hne
    have hFne : raws.filter (included t) ≠ [] := by
      intro hnil
      exact hne (by rw [hnil]; rfl)
    have hmem : ((raws.filter (included t)).map RawDetection.score).foldl max 0 ∈
        (raws.filter (included t)).map RawDetection.score := by
      rcases foldl_max_eq_or_mem ((raws.filter (included t)).map RawDetection.score) 0
        with h0 | hm
      · obtain ⟨d, hd⟩ := List.exists_mem_of_ne_nil _ hFne
        have hds : d.score ∈ (raws.filter (included t)).map RawDetection.score :=
          List.mem_map_of_mem RawDetection.score hd
        have hle : d.score ≤ ((raws.filter (included t)).map RawDetection.score).foldl max 0 :=
          le_foldl_max_of_mem _ 0 _ hds
        have hge : 0 ≤ d.score := h d (List.mem_of_mem_filter hd)
        have : d.score = ((raws.filter (included t)).map RawDetection.score).foldl max 0 :=
          le_antisymm hle (by rw [h0]; exact hge)
        rw [← this]
        exact hds
      · exact hm
    obtain ⟨d, hdF, hdscore⟩ := List.mem_map.mp hmem
    constructor
    · rw [List.map_map]
      exact List.mem_map.mpr ⟨d, hdF, by
        simp only [Function.comp_apply, mkDetectionEntry, hdscore]⟩
    · intro e he
      obtain ⟨d', hd'F, rfl⟩ := List.mem_map.mp he
      exact truncate_float_mono CONF_DIGITS
        (le_foldl_max_of_mem _ 0 _ (List.mem_map_of_mem RawDetection.score hd'F))

/-- Witness for C6 at the single raw detection `{box:[0,0,1,1], score:1,
class:1}` and threshold `0`. -/
theorem C6_max_confidence_invariant_witness :
    (∀ d ∈ [RawDetection.mk (0, 0, 1, 1) 1 1], 0 ≤ d.score) ∧
    ∃ ds m,
      (generate_detections_one_image
        (Except.ok [RawDetection.mk (0, 0, 1, 1) 1 1]) "img" 0).1.detections = some ds ∧
      (generate_detections_one_image
        (Except.ok [RawDetection.mk (0, 0, 1, 1) 1 1]) "img" 0).1.max_detection_conf =
        some m ∧
      0 ≤ m ∧
      (ds = [] → m = 0) ∧
      (ds ≠ [] → m ∈ ds.map Detection.conf ∧ ∀ e ∈ ds, e.conf ≤ m) :=
  ⟨by decide,
   C6_max_confidence_invariant 0 [RawDetection.mk (0, 0, 1, 1) 1 1] "img" (by decide)⟩

/-- C7 counterexample: for the box `[0.11119, 0.11119, 0.33338, 0.33338]`
(coordinates in `[0,1]`, `y1 < y2`, `x1 < x2`), the round trip's third
component differs from the original `y2` by `0.00018`, which exceeds the
4-decimal-place tolerance `10 ^ (-4)`: two truncation errors accumulate. -/
theorem C7_roundtrip_counterexample :
    ((0:ℚ) ≤ 11119/100000 ∧ (11119/100000:ℚ) ≤ 1 ∧
     (0:ℚ) ≤ 33338/100000 ∧ (33338/100000:ℚ) ≤ 1 ∧
     (11119/100000:ℚ) < 33338/100000) ∧
    ¬ (|(convert_to_tf_coords (convert_coords
          (11119/100000, 11119/100000, 33338/100000, 33338/100000))).2.2.1
        - 33338/100000| ≤ 1/10^4) := by
  constructor
  · norm_num
  · simp only [convert_coords, convert_to_tf_coords, round_and_make_float,
      truncate_float, COORD_DIGITS]
    intro habs
    rw [abs_le] at habs
    have h1 := habs.1
    norm_num at h1

/-- C7 amended: for every box `[y1, x1, y2, x2]` with coordinates in `[0,1]`,
`y1 < y2` and `x1 < x2`, the round trip reproduces the first two components
within one truncation ulp (`10 ^ (-4)`) and the last two components within
two truncation ulps (strictly less than `2 * 10 ^ (-4)`), since the latter
are sums of two independently truncated values. -/
theorem C7_roundtrip_within_two_ulps (y1 x1 y2 x2 : ℚ)
    (_hy1l : 0 ≤ y1) (_hy1u : y1 ≤ 1) (_hx1l : 0 ≤ x1) (_hx1u : x1 ≤ 1)
    (_hy2l : 0 ≤ y2) (_hy2u : y2 ≤ 1) (_hx2l : 0 ≤ x2) (_hx2u : x2 ≤ 1)
    (_hyy : y1 < y2) (_hxx : x1 < x2) :
    |(convert_to_tf_coords (convert_coords (y1, x1, y2, x2))).1 - y1| < 1/10^4 ∧
    |(convert_to_tf_coords (convert_coords (y1, x1, y2, x2))).2.1 - x1| < 1/10^4 ∧
    |(convert_to_tf_coords (convert_coords (y1, x1, y2, x2))).2.2.1 - y2| < 2/10^4 ∧
    |(convert_to_tf_coords (convert_coords (y1, x1, y2, x2))).2.2.2 - x2| < 2/10^4 := by
  have h1 := truncate_float_le y1 4
  have h2 := truncate_float_gt y1 4
  have h3 := truncate_float_le x1 4
  have h4 := truncate_float_gt x1 4
  have h5 := truncate_float_le (y2 - y1) 4
  have h6 := truncate_float_gt (y2 - y1) 4
  have h7 := truncate_float_le (x2 - x1) 4
  have h8 := truncate_float_gt (x2 - x1) 4
  simp only [convert_coords, convert_to_tf_coords, round_and_make_float, COORD_DIGITS]
  refine ⟨?_, ?_, ?_, ?_⟩ <;> rw [abs_lt] <;> constructor <;> linarith

/-- Witness for the amended C7 at the box `[0, 0, 1, 1]`. -/
theorem C7_roundtrip_within_two_ulps_witness :
    ((0:ℚ) ≤ 0 ∧ (0:ℚ) ≤ 1 ∧ (1:ℚ) ≤ 1 ∧ (0:ℚ) < 1) ∧
    (|(convert_to_tf_coords (convert_coords (0, 0, 1, 1))).1 - 0| < 1/10^4 ∧
     |(convert_to_tf_coords (convert_coords (0, 0, 1, 1))).2.1 - 0| < 1/10^4 ∧
     |(convert_to_tf_coords (convert_coords (0, 0, 1, 1))).2.2.1 - 1| < 2/10^4 ∧
     |(convert_to_tf_coords (convert_coords (0, 0, 1, 1))).2.2.2 - 1| < 2/10^4) :=
  ⟨⟨by decide, by decide, by decide, by decide⟩,
   C7_roundtrip_within_two_ulps 0 0 1 1 (by decide) (by decide) (by decide) (by decide)
     (by decide) (by decide) (by decide) (by decide) (by decide) (by decide)⟩
